import Mathlib

/-!
Verification development for the inbot repository: a shallow embedding of the
generation-streaming subsystem described in the repository documentation, the
frontend auth store, the MessageCreate validation schema, the connection
manager, and the provider retry helper, together with theorems settling the
frozen claims about them.
-/

namespace Inbot

/-! ## Core data model (src/documentation/03-data-models-storage.md) -/

/-- Token usage summary attached to a finalized assistant message
(interface TokenUsage, 03-data-models-storage.md). -/
structure TokenUsage where
  promptTokens : Nat
  completionTokens : Nat
  totalTokens : Nat
  deriving DecidableEq, Repr

/-- One element of a message content-parts array
(interface ContentPart, 03-data-models-storage.md). -/
inductive ContentPart
  | text (s : String)
  | image (data : String) (mimeType : String)
  | toolCall (toolCallId toolName : String)
  | toolResult (toolCallId : String)
  | reasoning (s : String)
  deriving DecidableEq, Repr

/-- Severity of a message status entry (MessageStatus in the data-model doc). -/
inductive StatusType
  | info
  | warning
  | error
  deriving DecidableEq, Repr

/-- A status entry carried by a persisted message. -/
structure MessageStatus where
  type : StatusType
  text : String
  deriving DecidableEq, Repr

abbrev MessageId := String
abbrev SessionId := String

/-- The persisted message record, restricted to the fields the claims are
about (interface Message, 03-data-models-storage.md). -/
structure Message where
  id : MessageId
  sessionId : SessionId
  contentParts : List ContentPart
  generating : Bool
  usage : Option TokenUsage
  status : List MessageStatus
  error : Option String
  deriving DecidableEq, Repr

/-! ## Frontend auth store (src/frontend/src/lib/store/auth.ts) -/

/-- The authenticated user record (src/frontend/src/types/index.ts). -/
structure User where
  id : String
  email : String
  username : String
  deriving DecidableEq, Repr

/-- The state slice of the Zustand auth store (interface AuthState). -/
structure AuthState where
  user : Option User
  accessToken : Option String
  refreshToken : Option String
  isAuthenticated : Bool
  isLoading : Bool
  error : Option String
  deriving DecidableEq, Repr

/-- Outcome of the awaited apiClient.logout() call: it either resolves or
throws with some error message. -/
inductive ApiOutcome
  | success
  | failure (msg : String)
  deriving DecidableEq, Repr

/-- The logout action of the auth store (auth.ts lines 87-103): sets
isLoading, awaits apiClient.logout() inside try/catch (the catch only writes
to the console log), and in the finally block clears user, both tokens,
isAuthenticated, isLoading and error.  Returns the new state together with
the console log lines produced. -/
def logout (s : AuthState) (r : ApiOutcome) : AuthState × List String :=
  let s1 : AuthState := { s with isLoading := true }
  let log : List String :=
    match r with
    | .success => []
    | .failure msg => ["Logout error: " ++ msg]
  let s2 : AuthState :=
    { s1 with
      user := none
      accessToken := none
      refreshToken := none
      isAuthenticated := false
      isLoading := false
      error := none }
  (s2, log)

/-! ## MessageCreate validation (src/unnamed/part_000 lines 213-224) -/

/-- A raw content part as received from the client: a dict with a type tag
and, for text parts, the text payload. -/
structure RawContentPart where
  type : String
  text : String
  deriving DecidableEq, Repr

/-- The MessageCreate request schema (pydantic model, part_000). -/
structure MessageCreate where
  role : String
  content_parts : List RawContentPart
  deriving DecidableEq, Repr

/-- Validation failure raised by the MessageCreate schema. -/
inductive ValidationError
  | roleInvalid
  | tooFewParts
  | tooManyParts
  | textTooLong
  deriving DecidableEq, Repr

/-- The role field constraint: regex (user|assistant|system) anchored at both
ends (Field regex in MessageCreate). -/
def roleOk (r : String) : Bool :=
  r = "user" || r = "assistant" || r = "system"

/-- The per-part check of the validate_content_parts validator: a text part
may carry at most 100000 characters; other part kinds are not checked. -/
def partOk (p : RawContentPart) : Bool :=
  if p.type = "text" then decide (p.text.length ≤ 100000) else true

/-- Validation of a MessageCreate request: role must match the regex,
content_parts must have between 1 and 10 items (min_items=1, max_items=10),
and every text part must be within the length limit. -/
def validateMessageCreate (m : MessageCreate) : Except ValidationError MessageCreate :=
  if ¬ roleOk m.role then .error .roleInvalid
  else if m.content_parts.length < 1 then .error .tooFewParts
  else if m.content_parts.length > 10 then .error .tooManyParts
  else if ¬ m.content_parts.all partOk then .error .textTooLong
  else .ok m

/-! ## Provider retry helper (src/unnamed/part_001 lines 1006-1017) -/

/-- Classified provider error taxonomy (spec section 7; the adapter surfaces
backend errors in one of these classes). -/
inductive ProviderErrorKind
  | rateLimited
  | authFailed
  | contextTooLong
  | transientNetwork
  | unknown
  deriving DecidableEq, Repr

/-- tenacity stop_after_attempt argument used by call_ai_provider_with_retry. -/
def stopAfterAttempt : Nat := 3

/-- tenacity wait_exponential(multiplier=1, min=2, max=10): the sleep before
retry number attemptNumber+1 is multiplier * 2 ^ attemptNumber clamped into
[min, max]. -/
def waitExponential (multiplier minW maxW attemptNumber : Nat) : Nat :=
  max minW (min (multiplier * 2 ^ attemptNumber) maxW)

/-- One attempt loop of the tenacity-decorated call: the decorator retries on
every raised exception (no retry= predicate is configured), sleeping
wait_exponential between attempts, until stop_after_attempt attempts have
been made; the final failure is re-raised.  The provider is modelled as a
function from the attempt number (starting at 1) to a result.  Returns the
final result, the number of the last attempt made, and the list of sleeps
performed. -/
def retryAttempts (provider : Nat → Except ProviderErrorKind String) :
    Nat → Nat → Except ProviderErrorKind String × Nat × List Nat
  | 0, attempt => (.error .unknown, attempt, [])
  | fuel + 1, attempt =>
    match provider attempt with
    | .ok v => (.ok v, attempt, [])
    | .error e =>
      if fuel = 0 then (.error e, attempt, [])
      else
        let rest := retryAttempts provider fuel (attempt + 1)
        (rest.1, rest.2.1, waitExponential 1 2 10 attempt :: rest.2.2)

/-- call_ai_provider_with_retry: the retry decorator applied with
stop_after_attempt(3) and wait_exponential(multiplier=1, min=2, max=10),
starting from attempt number 1. -/
def call_ai_provider_with_retry (provider : Nat → Except ProviderErrorKind String) :
    Except ProviderErrorKind String × Nat × List Nat :=
  retryAttempts provider stopAfterAttempt 1

/-! ## ConnectionManager (src/unnamed/part_001 lines 209-235) -/

/-- Identity of one client websocket connection. -/
abbrev ConnId := Nat

/-- The Redis pub/sub ConnectionManager: its active_connections field is a
Python dict keyed by session_id, holding a single websocket per session;
modelled as an association list in which insertion replaces any previous
binding for the same key (Python dict assignment semantics). -/
structure ConnectionManager where
  active_connections : List (SessionId × ConnId)
  deriving DecidableEq, Repr

namespace ConnectionManager

/-- The manager as constructed at module load: no connections. -/
def empty : ConnectionManager := ⟨[]⟩

/-- Dict lookup active_connections.get(session_id). -/
def get (m : ConnectionManager) (s : SessionId) : Option ConnId :=
  (m.active_connections.find? (fun p => p.1 = s)).map (·.2)

/-- connect(session_id, websocket): accepts the socket and executes
self.active_connections[session_id] = websocket, a dict assignment that
replaces any websocket previously stored for the session. -/
def connect (m : ConnectionManager) (s : SessionId) (c : ConnId) : ConnectionManager :=
  ⟨(s, c) :: m.active_connections.filter (fun p => ¬ p.1 = s)⟩

/-- The delivery performed for one broadcast(session_id, message): the
message is published on the session channel and the listening task sends it
to active_connections.get(session_id) if that lookup succeeds — so at most
the single stored websocket receives it. -/
def broadcast (m : ConnectionManager) (s : SessionId) (msg : String) :
    List (ConnId × String) :=
  match m.get s with
  | some c => [(c, msg)]
  | none => []

end ConnectionManager

/-! ## Stream events (src/documentation/04-api-specifications.md, WebSocket
server-to-client events) -/

/-- A server-to-client stream event, with the payload fields the wire
protocol gives each event type. -/
inductive StreamEvent
  | messageCreated (messageId : MessageId)
  | streamStart (messageId : MessageId) (provider model : String)
  | streamChunk (messageId : MessageId) (chunk : String) (chunkIndex : Nat)
  | streamEnd (messageId : MessageId) (usage : TokenUsage)
  | streamError (messageId : MessageId) (error : String)
  deriving DecidableEq, Repr

namespace StreamEvent

/-- The message_id field carried by every stream event. -/
def messageId : StreamEvent → MessageId
  | .messageCreated mid => mid
  | .streamStart mid _ _ => mid
  | .streamChunk mid _ _ => mid
  | .streamEnd mid _ => mid
  | .streamError mid _ => mid

/-- Whether an event is one of the two terminal event types. -/
def isTerminal : StreamEvent → Bool
  | .streamEnd _ _ => true
  | .streamError _ _ => true
  | _ => false

/-- The chunk_index of a stream_chunk event for the given message id. -/
def chunkIndexOf (mid : MessageId) : StreamEvent → Option Nat
  | .streamChunk mid2 _ i => if mid2 = mid then some i else none
  | _ => none

end StreamEvent

/-! ## Generation Job (spec sections 4.2, 4.4, 4.5; the streaming subsystem
has no implementation under src/, only the wire protocol document and an
abbreviated endpoint sketch, so the job lifecycle is modelled from the
spec) -/

/-- Terminal outcome of one adapter invocation: the lazy delta sequence
either ends normally with a usage summary or raises a classified error. -/
inductive AdapterOutcome
  | completed (usage : TokenUsage)
  | failed (e : ProviderErrorKind)
  deriving DecidableEq, Repr

/-- Lifecycle state of a Generation Job. -/
inductive JobState
  | queued
  | streaming
  | completedState
  | cancelledState
  | failedState
  deriving DecidableEq, Repr

/-- Whether a job state is one of the three absorbing terminal states. -/
def JobState.isTerminal : JobState → Bool
  | .completedState => true
  | .cancelledState => true
  | .failedState => true
  | _ => false

/-- Modelled from the spec: a Generation Job record (spec section 3; the job
registry and cancellation token have no implementation under src/). -/
structure Job where
  mid : MessageId
  sessionId : SessionId
  state : JobState
  cancelRequested : Bool
  deriving DecidableEq, Repr

/-- Modelled from the spec: cancel(message id) of the Cancellation
Controller (spec section 4.5) — on a job already in a terminal state it is a
no-op, otherwise it sets the cancellation token and returns immediately. -/
def cancel (j : Job) : Job :=
  if j.state.isTerminal then j
  else { j with cancelRequested := true }

/-- Readable description of a classified provider error, as persisted in the
error-level status of a failed message. -/
def ProviderErrorKind.describe : ProviderErrorKind → String
  | .rateLimited => "rate-limited"
  | .authFailed => "auth-failed"
  | .contextTooLong => "context-too-long"
  | .transientNetwork => "transient-network"
  | .unknown => "unknown provider error"

/-- The chunks the adapter actually delivers when cancellation is
acknowledged before delta number k (cancelAt = some k): the first k chunks;
with no cancellation every chunk is delivered. -/
def effectiveChunks (chunks : List String) (cancelAt : Option Nat) : List String :=
  match cancelAt with
  | none => chunks
  | some k => chunks.take k

/-- Modelled from the spec: the stream_chunk events a Generation Job emits
for its delta sequence, stamped with the per-job monotonically increasing
chunk counter starting at i (spec sections 3 and 6: chunk_index starts at 0
and increases by one per chunk). -/
def chunkEvents (mid : MessageId) : Nat → List String → List StreamEvent
  | _, [] => []
  | i, c :: cs => .streamChunk mid c i :: chunkEvents mid (i + 1) cs

/-- Modelled from the spec: the single terminal event of a run — stream_end
for natural completion and for acknowledged cancellation (the adapter
returns a cancelled terminal marker rather than an error), stream_error for
a classified failure (spec sections 4.1, 4.2, 6). -/
def terminalEvent (mid : MessageId) (outcome : AdapterOutcome)
    (cancelAt : Option Nat) : StreamEvent :=
  match cancelAt with
  | some _ => .streamEnd mid ⟨0, 0, 0⟩
  | none =>
    match outcome with
    | .completed u => .streamEnd mid u
    | .failed e => .streamError mid e.describe

/-- Modelled from the spec: the terminal job state a run reaches (spec
section 4.2). -/
def terminalState (outcome : AdapterOutcome) (cancelAt : Option Nat) : JobState :=
  match cancelAt with
  | some _ => .cancelledState
  | none =>
    match outcome with
    | .completed _ => .completedState
    | .failed _ => .failedState

/-- Modelled from the spec: the full event sequence one Generation Job
produces for its message id — stream_start, the chunk events, then exactly
one terminal event (spec sections 4.2 and 6). -/
def jobEvents (mid : MessageId) (provider model : String) (chunks : List String)
    (outcome : AdapterOutcome) (cancelAt : Option Nat) : List StreamEvent :=
  .streamStart mid provider model ::
    (chunkEvents mid 0 (effectiveChunks chunks cancelAt) ++
      [terminalEvent mid outcome cancelAt])

/-- Modelled from the spec: the finalize call the Orchestrator issues on a
terminal job state (spec section 4.4) — Completed persists the accumulated
content and the usage; Cancelled persists the accumulated content with an
info-level stopped-by-user status; Failed persists the accumulated content
plus an error-level status carrying the classified description; every branch
clears the generating flag. -/
def finalizeMessage (mid : MessageId) (sid : SessionId) (accumulated : List String)
    (outcome : AdapterOutcome) (cancelAt : Option Nat) : Message :=
  let content : List ContentPart := [.text (String.join accumulated)]
  match cancelAt with
  | some _ =>
    { id := mid, sessionId := sid, contentParts := content, generating := false,
      usage := none, status := [⟨.info, "stopped by user"⟩], error := none }
  | none =>
    match outcome with
    | .completed u =>
      { id := mid, sessionId := sid, contentParts := content, generating := false,
        usage := some u, status := [], error := none }
    | .failed e =>
      { id := mid, sessionId := sid, contentParts := content, generating := false,
        usage := none, status := [⟨.error, e.describe⟩], error := some e.describe }

/-- Modelled from the spec: one complete generation run — the events sent to
the client and the message the Orchestrator persists on the terminal
transition. -/
def runGeneration (mid : MessageId) (sid : SessionId) (provider model : String)
    (chunks : List String) (outcome : AdapterOutcome) (cancelAt : Option Nat) :
    List StreamEvent × Message :=
  (jobEvents mid provider model chunks outcome cancelAt,
   finalizeMessage mid sid (effectiveChunks chunks cancelAt) outcome cancelAt)

/-- Modelled from the spec: the event sequence produced when the client has
issued stopCount stop_generation requests for the job, the first of which
(if any) is acknowledged by the adapter before delta number ackAt — the
cancellation token is a flag, so later requests find it already set (spec
sections 4.5 and 8). -/
def runWithStops (mid : MessageId) (provider model : String) (chunks : List String)
    (outcome : AdapterOutcome) (stopCount ackAt : Nat) : List StreamEvent :=
  if stopCount = 0 then jobEvents mid provider model chunks outcome none
  else jobEvents mid provider model chunks outcome (some ackAt)

/-! ## Generation Job registry (spec section 5; no implementation under
src/, modelled from the spec) -/

abbrev JobId := Nat

/-- A submit attempt rejection (spec section 7 taxonomy, restricted to the
errors submit can raise). -/
inductive SubmitError
  | validation (e : ValidationError)
  | duplicateGeneration
  deriving DecidableEq, Repr

/-- Modelled from the spec: the Generation Job registry, the only shared
mutable structure — a map from message id to the active job id (spec section
5). -/
structure Registry where
  active : List (MessageId × JobId)
  deriving DecidableEq, Repr

namespace Registry

/-- The registry at process start: no active jobs. -/
def empty : Registry := ⟨[]⟩

/-- Lookup of the active job for a message id. -/
def find? (r : Registry) (mid : MessageId) : Option JobId :=
  (r.active.find? (fun p => p.1 = mid)).map (·.2)

/-- Modelled from the spec: atomic check-and-insert — rejects a second
active job for the same message id with DuplicateGenerationError and leaves
the registry unchanged, otherwise records the new job (spec sections 3 and
5).  Returns the registry after the operation and the rejection, if any. -/
def checkAndInsert (r : Registry) (mid : MessageId) (j : JobId) :
    Registry × Option SubmitError :=
  match r.find? mid with
  | some _ => (r, some .duplicateGeneration)
  | none => (⟨(mid, j) :: r.active⟩, none)

/-- Modelled from the spec: atomic remove-on-terminal (spec section 5). -/
def removeTerminal (r : Registry) (mid : MessageId) : Registry :=
  ⟨r.active.filter (fun p => ¬ p.1 = mid)⟩

/-- The number of active jobs a registry holds for a message id. -/
def activeCount (r : Registry) (mid : MessageId) : Nat :=
  (r.active.filter (fun p => p.1 = mid)).length

end Registry

/-- One atomic operation on the job registry: a submit attempt or a terminal
removal.  Concurrency reduces to an arbitrary sequence of these because both
operations are atomic (spec section 5). -/
inductive RegOp
  | submit (mid : MessageId) (j : JobId)
  | finish (mid : MessageId)
  deriving DecidableEq, Repr

/-- Apply one atomic registry operation. -/
def applyOp (r : Registry) : RegOp → Registry
  | .submit mid j => (r.checkAndInsert mid j).1
  | .finish mid => r.removeTerminal mid

/-- Apply a sequence of atomic registry operations from left to right. -/
def applyOps (r : Registry) : List RegOp → Registry
  | [] => r
  | op :: ops => applyOps (applyOp r op) ops

/-- Modelled from the spec: submit(session id, user content) up to job
creation (spec section 4.4) — the message is validated first and a
validation failure is rejected before any Generation Job is created; a valid
message goes through the registry check-and-insert.  Returns the registry
after the call and the rejection, if any. -/
def submitMessage (m : MessageCreate) (r : Registry) (mid : MessageId) (j : JobId) :
    Registry × Option SubmitError :=
  match validateMessageCreate m with
  | .error e => (r, some (.validation e))
  | .ok _ => r.checkAndInsert mid j

/-! ## Per-client event delivery (spec section 4.3; the Session Stream
Manager has no implementation under src/, modelled from the spec) -/

/-- An arbitrary interleaving of two event sequences: the order within each
sequence is preserved, the two sequences interleave freely.  This is how one
client observes a job together with concurrent traffic for other
messages. -/
inductive Interleave : List StreamEvent → List StreamEvent → List StreamEvent → Prop
  | nil : Interleave [] [] []
  | left {x : StreamEvent} {xs ys zs : List StreamEvent} :
      Interleave xs ys zs → Interleave (x :: xs) ys (x :: zs)
  | right {y : StreamEvent} {xs ys zs : List StreamEvent} :
      Interleave xs ys zs → Interleave xs (y :: ys) (y :: zs)

/-- The chunk_index values of the stream_chunk events for a message id, in
the order the client observes them. -/
def observedChunkIndices (mid : MessageId) (events : List StreamEvent) : List Nat :=
  events.filterMap (StreamEvent.chunkIndexOf mid)

/-- The chunk payload of a stream_chunk event for the given message id. -/
def chunkPayloadOf (mid : MessageId) : StreamEvent → Option String
  | .streamChunk mid2 c _ => if mid2 = mid then some c else none
  | _ => none

/-- The chunk payloads of the stream_chunk events for a message id, in the
order the client observes them. -/
def observedChunks (mid : MessageId) (events : List StreamEvent) : List String :=
  events.filterMap (chunkPayloadOf mid)

/-! ## Helper lemmas -/

theorem chunkIndexOf_eq_none_of_ne {mid : MessageId} {e : StreamEvent}
    (h : e.messageId ≠ mid) : StreamEvent.chunkIndexOf mid e = none := by
  cases e with
  | streamChunk mid2 c i =>
    simp only [StreamEvent.messageId] at h
    simp [StreamEvent.chunkIndexOf, h]
  | _ => rfl

theorem interleave_filterMap_chunkIdx {mid : MessageId}
    {xs ys zs : List StreamEvent} (h : Interleave xs ys zs) :
    (∀ e ∈ ys, e.messageId ≠ mid) →
    zs.filterMap (StreamEvent.chunkIndexOf mid) =
      xs.filterMap (StreamEvent.chunkIndexOf mid) := by
  induction h with
  | nil => intro _; rfl
  | left h ih =>
    intro hys
    rw [List.filterMap_cons, List.filterMap_cons, ih hys]
  | right h ih =>
    rename_i y xs ys zs
    intro hys
    have hy : StreamEvent.chunkIndexOf mid y = none :=
      chunkIndexOf_eq_none_of_ne (hys y (List.mem_cons_self y ys))
    rw [List.filterMap_cons, hy]
    exact ih (fun e he => hys e (List.mem_cons_of_mem y he))

theorem chunkEvents_filterMap (mid : MessageId) (cs : List String) :
    ∀ i, (chunkEvents mid i cs).filterMap (StreamEvent.chunkIndexOf mid) =
      List.range' i cs.length := by
  induction cs with
  | nil => intro i; rfl
  | cons c cs ih =>
    intro i
    simp [chunkEvents, List.filterMap_cons, StreamEvent.chunkIndexOf, ih,
      List.range'_succ]

theorem chunkIndexOf_streamStart (mid mid2 p mo : String) :
    StreamEvent.chunkIndexOf mid (.streamStart mid2 p mo) = none := rfl

theorem isTerminal_streamStart (mid p mo : String) :
    (StreamEvent.streamStart mid p mo).isTerminal = false := rfl

theorem isTerminal_streamChunk (mid c : String) (i : Nat) :
    (StreamEvent.streamChunk mid c i).isTerminal = false := rfl

theorem terminalEvent_chunkIndexOf (mid : MessageId) (outcome : AdapterOutcome)
    (cancelAt : Option Nat) :
    StreamEvent.chunkIndexOf mid (terminalEvent mid outcome cancelAt) = none := by
  rcases cancelAt with _ | k
  · rcases outcome with u | e <;> rfl
  · rfl

theorem jobEvents_filterMap (mid provider model : String) (chunks : List String)
    (outcome : AdapterOutcome) (cancelAt : Option Nat) :
    (jobEvents mid provider model chunks outcome cancelAt).filterMap
        (StreamEvent.chunkIndexOf mid) =
      List.range (effectiveChunks chunks cancelAt).length := by
  simp only [jobEvents, List.filterMap_cons, List.filterMap_append,
    chunkIndexOf_streamStart, chunkEvents_filterMap, terminalEvent_chunkIndexOf,
    List.filterMap_nil, List.append_nil, List.range_eq_range']

theorem chunkEvents_not_terminal (mid : MessageId) (cs : List String) :
    ∀ i, (chunkEvents mid i cs).countP (fun e => e.isTerminal) = 0 := by
  induction cs with
  | nil => intro i; rfl
  | cons c cs ih =>
    intro i
    simp [chunkEvents, List.countP_cons, isTerminal_streamChunk, ih]

theorem terminalEvent_isTerminal (mid : MessageId) (outcome : AdapterOutcome)
    (cancelAt : Option Nat) :
    (terminalEvent mid outcome cancelAt).isTerminal = true := by
  rcases cancelAt with _ | k
  · rcases outcome with u | e <;> rfl
  · rfl

theorem jobEvents_countP_terminal (mid provider model : String)
    (chunks : List String) (outcome : AdapterOutcome) (cancelAt : Option Nat) :
    (jobEvents mid provider model chunks outcome cancelAt).countP
      (fun e => e.isTerminal) = 1 := by
  simp [jobEvents, List.countP_cons, List.countP_append,
    isTerminal_streamStart, chunkEvents_not_terminal, terminalEvent_isTerminal]

theorem jobEvents_getLast (mid provider model : String) (chunks : List String)
    (outcome : AdapterOutcome) (cancelAt : Option Nat) :
    (jobEvents mid provider model chunks outcome cancelAt).getLast? =
      some (terminalEvent mid outcome cancelAt) := by
  rw [jobEvents, ← List.cons_append, List.getLast?_concat]

theorem chunkPayloadOf_streamStart (mid mid2 p mo : String) :
    chunkPayloadOf mid (.streamStart mid2 p mo) = none := rfl

theorem terminalEvent_chunkPayloadOf (mid : MessageId) (outcome : AdapterOutcome)
    (cancelAt : Option Nat) :
    chunkPayloadOf mid (terminalEvent mid outcome cancelAt) = none := by
  rcases cancelAt with _ | k
  · rcases outcome with u | e <;> rfl
  · rfl

theorem chunkEvents_payloads (mid : MessageId) (cs : List String) :
    ∀ i, (chunkEvents mid i cs).filterMap (chunkPayloadOf mid) = cs := by
  induction cs with
  | nil => intro i; rfl
  | cons c cs ih =>
    intro i
    simp [chunkEvents, List.filterMap_cons, chunkPayloadOf, ih]

theorem observedChunks_jobEvents (mid provider model : String)
    (chunks : List String) (outcome : AdapterOutcome) (cancelAt : Option Nat) :
    observedChunks mid (jobEvents mid provider model chunks outcome cancelAt) =
      effectiveChunks chunks cancelAt := by
  simp only [observedChunks, jobEvents, List.filterMap_cons,
    chunkPayloadOf_streamStart, List.filterMap_append, chunkEvents_payloads,
    terminalEvent_chunkPayloadOf, List.filterMap_nil, List.append_nil]

theorem activeCount_checkAndInsert {r : Registry}
    (h : ∀ mid, r.activeCount mid ≤ 1) (mid : MessageId) (j : JobId) :
    ∀ mid2, ((r.checkAndInsert mid j).1).activeCount mid2 ≤ 1 := by
  intro mid2
  rw [Registry.checkAndInsert]
  cases hf : r.find? mid with
  | some j0 => exact h mid2
  | none =>
    have hfind : r.active.find? (fun p => decide (p.1 = mid)) = none := by
      revert hf
      unfold Registry.find?
      cases r.active.find? (fun p => decide (p.1 = mid)) <;> simp
    have hfil : r.active.filter (fun p => decide (p.1 = mid)) = [] :=
      List.filter_eq_nil_iff.mpr (List.find?_eq_none.mp hfind)
    by_cases hmid : mid2 = mid
    · subst hmid
      simp [Registry.activeCount, List.filter_cons, hfil]
    · have hne : ¬ (mid = mid2) := fun hh => hmid hh.symm
      have h2 := h mid2
      simp only [Registry.activeCount] at h2 ⊢
      simpa [List.filter_cons, hne] using h2

theorem activeCount_removeTerminal {r : Registry}
    (h : ∀ mid, r.activeCount mid ≤ 1) (mid : MessageId) :
    ∀ mid2, (r.removeTerminal mid).activeCount mid2 ≤ 1 := by
  intro mid2
  have h2 := h mid2
  simp only [Registry.activeCount, Registry.removeTerminal] at h2 ⊢
  rw [List.filter_comm]
  exact le_trans (List.length_filter_le _ _) h2

theorem activeCount_applyOp {r : Registry} (h : ∀ mid, r.activeCount mid ≤ 1)
    (op : RegOp) : ∀ mid, (applyOp r op).activeCount mid ≤ 1 := by
  cases op with
  | submit mid j => exact activeCount_checkAndInsert h mid j
  | finish mid => exact activeCount_removeTerminal h mid

theorem activeCount_applyOps (ops : List RegOp) :
    ∀ r : Registry, (∀ mid, r.activeCount mid ≤ 1) →
      ∀ mid, (applyOps r ops).activeCount mid ≤ 1 := by
  induction ops with
  | nil => intro r h; exact h
  | cons op ops ih =>
    intro r h
    exact ih _ (activeCount_applyOp h op)

theorem retryAttempts_last_le (provider : Nat → Except ProviderErrorKind String) :
    ∀ fuel, 1 ≤ fuel → ∀ attempt,
      (retryAttempts provider fuel attempt).2.1 ≤ attempt + fuel - 1 := by
  intro fuel
  induction fuel with
  | zero => intro h; omega
  | succ f ih =>
    intro _ a
    cases h : provider a with
    | ok v => simp [retryAttempts, h]
    | error e =>
      simp only [retryAttempts, h]
      by_cases hf : f = 0
      · simp [hf]
      · rw [if_neg hf]
        have h2 := ih (by omega) (a + 1)
        show (retryAttempts provider f (a + 1)).2.1 ≤ a + (f + 1) - 1
        omega

/-! ## Claims -/

/-- Claim C1: for every message id, the chunk_index values carried by the
stream_chunk events delivered to any one client form a strictly increasing,
gapless sequence of contiguous integers starting at 0 (the list of observed
indices is exactly List.range of the number of chunks), even when the
events of concurrent generations for other message ids are interleaved into
the stream the client observes. -/
theorem chunk_indices_contiguous_from_zero (mid provider model : String)
    (chunks : List String) (outcome : AdapterOutcome) (cancelAt : Option Nat)
    (other observed : List StreamEvent)
    (hother : ∀ e ∈ other, e.messageId ≠ mid)
    (hobs : Interleave (jobEvents mid provider model chunks outcome cancelAt)
      other observed) :
    observedChunkIndices mid observed =
      List.range (effectiveChunks chunks cancelAt).length := by
  unfold observedChunkIndices
  rw [interleave_filterMap_chunkIdx hobs hother, jobEvents_filterMap]

/-- The events of a concurrent generation for message id m2, as observed
together with the m1 job in the C1 witness. -/
def c1OtherEvents : List StreamEvent :=
  [.streamStart "m2" "openai" "gpt-4", .streamChunk "m2" "Yo" 0,
   .streamEnd "m2" ⟨1, 1, 2⟩]

/-- A concrete interleaved stream observed by one client: the m1 job and a
concurrent m2 job, alternating. -/
def c1ObservedEvents : List StreamEvent :=
  [.streamStart "m1" "openai" "gpt-4", .streamStart "m2" "openai" "gpt-4",
   .streamChunk "m1" "Hi" 0, .streamChunk "m2" "Yo" 0,
   .streamChunk "m1" " there" 1, .streamEnd "m2" ⟨1, 1, 2⟩,
   .streamEnd "m1" ⟨5, 2, 7⟩]

theorem chunk_indices_contiguous_from_zero_witness :
    (∀ e ∈ c1OtherEvents, e.messageId ≠ "m1") ∧
    observedChunkIndices "m1" c1ObservedEvents = List.range 2 :=
  ⟨by decide,
   chunk_indices_contiguous_from_zero "m1" "openai" "gpt-4" ["Hi", " there"]
     (.completed ⟨5, 2, 7⟩) none c1OtherEvents c1ObservedEvents (by decide)
     (.left (.right (.left (.right (.left (.right (.left .nil)))))))⟩

/-- Claim C2: the event sequence of every generation run contains exactly one
terminal event, the terminal event is the last event of the sequence, and a
run ended by one or more stop_generation requests (runWithStops with a
positive stop count) still produces exactly one terminal event. -/
theorem terminal_event_exactly_once (mid provider model : String)
    (chunks : List String) (outcome : AdapterOutcome) (cancelAt : Option Nat)
    (stopCount ackAt : Nat) :
    (jobEvents mid provider model chunks outcome cancelAt).countP
        (fun e => e.isTerminal) = 1 ∧
    (jobEvents mid provider model chunks outcome cancelAt).getLast? =
      some (terminalEvent mid outcome cancelAt) ∧
    (terminalEvent mid outcome cancelAt).isTerminal = true ∧
    (runWithStops mid provider model chunks outcome (stopCount + 1) ackAt).countP
        (fun e => e.isTerminal) = 1 := by
  refine ⟨jobEvents_countP_terminal mid provider model chunks outcome cancelAt,
    jobEvents_getLast mid provider model chunks outcome cancelAt,
    terminalEvent_isTerminal mid outcome cancelAt, ?_⟩
  simp [runWithStops, jobEvents_countP_terminal]

/-- Claim C3: every registry reachable from the empty registry by any
sequence of atomic submit and remove operations holds at most one active job
per message id, and a submit attempt for a message id that already has an
active job is rejected with DuplicateGenerationError while the registry — and
hence the existing job binding — is unchanged. -/
theorem single_active_job_per_message_id (ops : List RegOp) (mid0 : MessageId)
    (r : Registry) (mid : MessageId) (j j2 : JobId)
    (hactive : r.find? mid = some j) :
    (applyOps Registry.empty ops).activeCount mid0 ≤ 1 ∧
    r.checkAndInsert mid j2 = (r, some .duplicateGeneration) ∧
    ((r.checkAndInsert mid j2).1).find? mid = some j := by
  refine ⟨activeCount_applyOps ops Registry.empty (fun m => by
    simp [Registry.empty, Registry.activeCount]) mid0, ?_, ?_⟩
  · rw [Registry.checkAndInsert, hactive]
  · rw [Registry.checkAndInsert, hactive]
    exact hactive

theorem single_active_job_per_message_id_witness :
    (Registry.mk [("m1", 1)]).find? "m1" = some 1 ∧
    (Registry.mk [("m1", 1)]).checkAndInsert "m1" 2 =
      (Registry.mk [("m1", 1)], some .duplicateGeneration) :=
  ⟨by decide,
   (single_active_job_per_message_id [] "m1" (Registry.mk [("m1", 1)])
     "m1" 1 2 (by decide)).2.1⟩

/-- Claim C4: a generation that ends in a terminal non-Completed state is
persisted with exactly the content accumulated before the terminal
transition — the concatenation of the chunks the client observed — plus a
readable status entry: a failed run carries an error-level status with the
classified description, a cancelled run carries the info-level
stopped-by-user status; both clear the generating flag. -/
theorem partial_failure_persistence (mid sid provider model : String)
    (chunks : List String) (e : ProviderErrorKind) (outcome : AdapterOutcome)
    (k : Nat) :
    ((runGeneration mid sid provider model chunks (.failed e) none).2.contentParts
        = [.text (String.join (observedChunks mid
            (runGeneration mid sid provider model chunks (.failed e) none).1))] ∧
      (runGeneration mid sid provider model chunks (.failed e) none).2.status
        = [⟨.error, e.describe⟩] ∧
      (runGeneration mid sid provider model chunks (.failed e) none).2.generating
        = false) ∧
    ((runGeneration mid sid provider model chunks outcome (some k)).2.contentParts
        = [.text (String.join (observedChunks mid
            (runGeneration mid sid provider model chunks outcome (some k)).1))] ∧
      (runGeneration mid sid provider model chunks outcome (some k)).2.status
        = [⟨.info, "stopped by user"⟩] ∧
      (runGeneration mid sid provider model chunks outcome (some k)).2.generating
        = false) := by
  refine ⟨⟨?_, rfl, rfl⟩, ⟨?_, rfl, rfl⟩⟩
  · rw [runGeneration, observedChunks_jobEvents]
    rfl
  · rw [runGeneration, observedChunks_jobEvents]
    rfl

/-- The connection manager after two tabs of the same session connect: the
dict assignment in connect has replaced tab 1 by tab 2. -/
def cmTwoTabs : ConnectionManager :=
  (ConnectionManager.empty.connect "S" 1).connect "S" 2

/-- Claim C5 counterexample: with two connections open for session S
(connection 1 then connection 2, neither disconnected), a broadcast for S is
delivered only to connection 2 — connection 1, though currently connected,
receives nothing, so not every Stream Event reaches every currently-connected
client of the session. -/
theorem broadcast_skips_superseded_connection :
    ConnectionManager.broadcast cmTwoTabs "S" "ev" = [(2, "ev")] ∧
    (1, "ev") ∉ ConnectionManager.broadcast cmTwoTabs "S" "ev" := by
  decide

/-- Claim C5 (amended): the ConnectionManager keeps a single websocket per
session — dict assignment on connect replaces any earlier connection of the
same session — so a broadcast for a session is delivered exactly to the most
recently connected client of that session, and to no other. -/
theorem broadcast_delivers_to_latest_connection (m : ConnectionManager)
    (s : SessionId) (c : ConnId) (msg : String) :
    (m.connect s c).broadcast s msg = [(c, msg)] := by
  simp [ConnectionManager.connect, ConnectionManager.broadcast,
    ConnectionManager.get, List.find?_cons]

/-- Claim C6: stop_generation is idempotent — cancel twice equals cancel
once, cancel on a job already in a terminal state is a no-op, a run with two
stop requests produces exactly the same event sequence as a run with one,
and that sequence contains exactly one terminal event, not two. -/
theorem stop_generation_idempotent (j : Job) (mid provider model : String)
    (chunks : List String) (outcome : AdapterOutcome) (ackAt : Nat) :
    cancel (cancel j) = cancel j ∧
    (j.state.isTerminal = true → cancel j = j) ∧
    runWithStops mid provider model chunks outcome 2 ackAt =
      runWithStops mid provider model chunks outcome 1 ackAt ∧
    (runWithStops mid provider model chunks outcome 2 ackAt).countP
        (fun e => e.isTerminal) = 1 := by
  refine ⟨?_, ?_, ?_, ?_⟩
  · by_cases h : j.state.isTerminal = true
    · simp [cancel, h]
    · simp [cancel, h]
  · intro h
    simp [cancel, h]
  · simp [runWithStops]
  · simp [runWithStops, jobEvents_countP_terminal]

theorem stop_generation_idempotent_witness :
    (Job.mk "m1" "S" .completedState false).state.isTerminal = true ∧
    cancel (Job.mk "m1" "S" .completedState false) =
      Job.mk "m1" "S" .completedState false :=
  ⟨by decide,
   (stop_generation_idempotent (Job.mk "m1" "S" .completedState false)
     "m1" "openai" "gpt-4" [] (.completed ⟨0, 0, 0⟩) 0).2.1 (by decide)⟩

/-- Claim C7: in the concrete run where the adapter streams the deltas Hi
and space-there and then the usage summary prompt 5, completion 2, total 7,
the persisted assistant message has content parts equal to the single text
part Hi-there, generating false, and usage total 7. -/
theorem hello_scenario_final_message :
    (runGeneration "msg-1" "S" "openai" "gpt-4" ["Hi", " there"]
        (.completed ⟨5, 2, 7⟩) none).2.contentParts = [.text "Hi there"] ∧
    (runGeneration "msg-1" "S" "openai" "gpt-4" ["Hi", " there"]
        (.completed ⟨5, 2, 7⟩) none).2.generating = false ∧
    (runGeneration "msg-1" "S" "openai" "gpt-4" ["Hi", " there"]
        (.completed ⟨5, 2, 7⟩) none).2.usage.map TokenUsage.totalTokens
      = some 7 := by
  refine ⟨?_, rfl, rfl⟩
  rfl

/-- A provider whose first attempt raises an auth-failed error and whose
second attempt succeeds. -/
def authFlakyProvider : Nat → Except ProviderErrorKind String :=
  fun n => if n = 1 then .error .authFailed else .ok "answer"

/-- Claim C8 counterexample: the retry decorator of
call_ai_provider_with_retry is configured with no retry predicate, so an
auth-failed error — not classified transient-network — is retried: the run
makes a second attempt after the auth-failed first attempt (sleeping the
backoff wait) and returns its result, contradicting the claim that retries
happen only for transient-network errors. -/
theorem retry_not_limited_to_transient_network :
    call_ai_provider_with_retry authFlakyProvider = (.ok "answer", 2, [2]) := by
  rfl

/-- Claim C8 (amended): retries live only in the provider helper and are
bounded to 3 attempts with exponential backoff (sleeping 2 then 4 seconds,
per wait_exponential with multiplier 1, min 2, max 10), and the final
failure is re-raised rather than swallowed — but the decorator retries every
error the provider raises, not only transient-network ones: a provider
failing once with any error kind whatsoever is retried and its second
attempt answer returned. -/
theorem retry_bounded_any_error (provider : Nat → Except ProviderErrorKind String)
    (e : ProviderErrorKind) (v : String) :
    (call_ai_provider_with_retry provider).2.1 ≤ 3 ∧
    call_ai_provider_with_retry (fun n => if n = 1 then .error e else .ok v)
      = (.ok v, 2, [2]) ∧
    call_ai_provider_with_retry (fun _ => .error e) = (.error e, 3, [2, 4]) := by
  refine ⟨?_, rfl, rfl⟩
  have h := retryAttempts_last_le provider 3 (by norm_num) 1
  simpa [call_ai_provider_with_retry, stopAfterAttempt] using h

/-- Claim C9: a send_message whose content has no content part, and one
violating the role constraint, are rejected with a ValidationError before
any Generation Job is created (the registry is returned unchanged), while a
message with a valid role, one to ten content parts, and all text parts
within the length limit passes validation and a job is created. -/
theorem validation_rejected_before_job (m : MessageCreate) (r : Registry)
    (mid : MessageId) (j : JobId) :
    (m.content_parts = [] →
      ∃ e, submitMessage m r mid j = (r, some (.validation e))) ∧
    (roleOk m.role = false →
      submitMessage m r mid j = (r, some (.validation .roleInvalid))) ∧
    (roleOk m.role = true → 1 ≤ m.content_parts.length →
      m.content_parts.length ≤ 10 → m.content_parts.all partOk = true →
      validateMessageCreate m = .ok m ∧
      submitMessage m Registry.empty mid j = (Registry.mk [(mid, j)], none)) := by
  refine ⟨?_, ?_, ?_⟩
  · intro h
    by_cases hr : roleOk m.role
    · exact ⟨.tooFewParts, by simp [submitMessage, validateMessageCreate, h, hr]⟩
    · exact ⟨.roleInvalid, by simp [submitMessage, validateMessageCreate, hr]⟩
  · intro h
    simp [submitMessage, validateMessageCreate, h]
  · intro hrole hlen1 hlen10 hall
    have h5 : ¬ m.content_parts.length < 1 := by omega
    have h6 : ¬ m.content_parts.length > 10 := by omega
    have hval : validateMessageCreate m = .ok m := by
      simp [validateMessageCreate, hrole, h5, h6, hall]
    refine ⟨hval, ?_⟩
    simp [submitMessage, hval, Registry.checkAndInsert, Registry.find?,
      Registry.empty]

/-- A send_message with an empty content_parts array. -/
def mEmptyParts : MessageCreate := ⟨"user", []⟩

/-- A well-formed send_message with one text content part. -/
def mValid : MessageCreate := ⟨"user", [⟨"text", "Hello"⟩]⟩

theorem validation_rejected_before_job_witness :
    (mEmptyParts.content_parts = [] ∧
      ∃ e, submitMessage mEmptyParts Registry.empty "m1" 1 =
        (Registry.empty, some (.validation e))) ∧
    (roleOk "bot" = false ∧
      submitMessage (MessageCreate.mk "bot" [⟨"text", "x"⟩]) Registry.empty "m1" 1
        = (Registry.empty, some (.validation .roleInvalid))) ∧
    (validateMessageCreate mValid = .ok mValid ∧
      submitMessage mValid Registry.empty "m1" 1 = (Registry.mk [("m1", 1)], none)) :=
  ⟨⟨rfl, (validation_rejected_before_job mEmptyParts Registry.empty "m1" 1).1 rfl⟩,
   ⟨by decide,
    (validation_rejected_before_job (MessageCreate.mk "bot" [⟨"text", "x"⟩])
      Registry.empty "m1" 1).2.1 (by decide)⟩,
   (validation_rejected_before_job mValid Registry.empty "m1" 1).2.2
     (by decide) (by decide) (by decide) (by decide)⟩

/-- Claim C10: after logout resolves, the stored user, accessToken and
refreshToken are null and isAuthenticated is false, on every path — whether
the server-side apiClient.logout call succeeded or threw. -/
theorem logout_clears_credentials (s : AuthState) (r : ApiOutcome) :
    (logout s r).1.user = none ∧ (logout s r).1.accessToken = none ∧
    (logout s r).1.refreshToken = none ∧
    (logout s r).1.isAuthenticated = false := by
  cases r <;> simp [logout]

end Inbot
